import Mathlib

/-!
Verification of the PAIS media-generation orchestrator (frontend modules).

Shallow embedding of the orchestration logic of the repository:
* the video status poller `pollVideoStatus` (src/unnamed/part_003, lines 132-173),
* the video job launcher `handleVideoGenerate` (src/unnamed/part_003, lines 74-127),
* the voice pipeline `handleVoiceGenerate` (src/frontend/modules/voice-generator.js),
* the content-generation entry `generate` (src/frontend/modules/content-generator.js),
* the per-stage task-id registry `setCurrentTaskId` (src/unnamed/part_003, lines 61-67).

Network effects are modelled by explicit request lists and by an oracle
function giving the response to each (numbered) status fetch; DOM
notifications are modelled by outcome tags.
-/

namespace PAIS

/-- JS truthiness of a nullable string: `null`/`undefined` and `""` are falsy,
every other string is truthy. -/
def strTruthy : Option String → Bool
  | none => false
  | some s => s != ""

/-- JS `a || b` on nullable strings: the first operand if truthy, else the second. -/
def jsOr (a b : Option String) : Option String :=
  if strTruthy a then a else b

/-- JS `String.prototype.trim`: strip leading and trailing whitespace. -/
def jsTrim (s : String) : String :=
  ⟨((s.data.dropWhile Char.isWhitespace).reverse.dropWhile Char.isWhitespace).reverse⟩

/-! ## Status poller (src/unnamed/part_003, `pollVideoStatus`) -/

/-- One record of the media-status response: `{media_type, status, file_path}`.
`file_path` is `none` when the field is absent in the JSON. -/
structure MediaRecord where
  media_type : String
  status : String
  file_path : Option String
deriving DecidableEq, Repr

/-- The body of a successful `getMediaStatus` response; `media_records` is
`none` when the field is absent (the code reads it with `?.`). -/
structure StatusResponse where
  media_records : Option (List MediaRecord)
deriving DecidableEq, Repr

/-- Result of one status fetch: `none` models a thrown error (network failure),
`some resp` a successful response. -/
def FetchResult := Option StatusResponse

/-- `const maxAttempts = 120` (src/unnamed/part_003 line 134). -/
def maxAttempts : Nat := 120

/-- The polling interval passed to `setTimeout` in both retry branches (5000 ms). -/
def pollIntervalMs : Nat := 5000

/-- `statusRes.media_records?.find(r => r.media_type === 'avatar_video' || r.media_type === 'video')`
(src/unnamed/part_003 line 148). -/
def findAvatarRecord (resp : StatusResponse) : Option MediaRecord :=
  match resp.media_records with
  | none => none
  | some records =>
      records.find? (fun r => r.media_type == "avatar_video" || r.media_type == "video")

/-- What one polling iteration decides after its status fetch. `keepPolling d`
records the delay passed to `setTimeout` for the next attempt. -/
inductive StepOutcome where
  | resolve (url : String)
  | failJob
  | keepPolling (delayMs : Nat)
deriving DecidableEq, Repr

/-- The branch structure of the body of `check` after the fetch
(src/unnamed/part_003 lines 143-168): a thrown fetch retries after 5000 ms;
a found record that is `completed` with truthy `file_path` resolves with
`'/' + file_path`; a found record that is `failed` fails the job; everything
else (including a missing record and a `completed` record with falsy
`file_path`) retries after 5000 ms. -/
def checkStep (fr : FetchResult) : StepOutcome :=
  match fr with
  | none => .keepPolling pollIntervalMs
  | some resp =>
      match findAvatarRecord resp with
      | some record =>
          if record.status == "completed" && strTruthy record.file_path then
            .resolve ("/" ++ record.file_path.getD "")
          else if record.status == "failed" then
            .failJob
          else
            .keepPolling pollIntervalMs
      | none => .keepPolling pollIntervalMs

/-- Terminal outcome of one poller run. -/
inductive PollOutcome where
  | resolved (url : String)
  | failedJob
  | timedOut
deriving DecidableEq, Repr

/-- Observable effects of one poller run: its terminal outcome, the number of
status fetches it issued, and the number of timeout notifications shown. -/
structure PollResult where
  outcome : PollOutcome
  requests : Nat
  timeoutReports : Nat
deriving DecidableEq, Repr

/-- The recursive `check` closure of `pollVideoStatus`. `a` is the value of the
`attempts` counter after the `attempts++` at the top of the iteration; `fuel`
is an upper bound on the remaining iterations used only to make the recursion
structural — with the initial fuel of `pollVideoStatus` the `fuel = 0` branch
is unreachable, because the `attempts > maxAttempts` timeout test fires first. -/
def pollCheck (oracle : Nat → FetchResult) : Nat → Nat → PollResult
  | a, fuel =>
    if maxAttempts < a then
      { outcome := .timedOut, requests := 0, timeoutReports := 1 }
    else
      match fuel with
      | 0 => { outcome := .timedOut, requests := 0, timeoutReports := 1 }
      | fuel + 1 =>
        match checkStep (oracle a) with
        | .resolve url => { outcome := .resolved url, requests := 1, timeoutReports := 0 }
        | .failJob => { outcome := .failedJob, requests := 1, timeoutReports := 0 }
        | .keepPolling _ =>
            let r := pollCheck oracle (a + 1) fuel
            { outcome := r.outcome, requests := r.requests + 1, timeoutReports := r.timeoutReports }

/-- `pollVideoStatus` (src/unnamed/part_003 lines 132-173): `attempts` starts
at 0, so the first iteration runs with the incremented counter equal to 1.
The `oracle` gives the result of the status fetch of each iteration, indexed
by that counter value. -/
def pollVideoStatus (oracle : Nat → FetchResult) : PollResult :=
  pollCheck oracle 1 (maxAttempts + 1)

/-- A record that the poller treats as non-terminal: neither
`completed`-with-truthy-`file_path` nor `failed`. -/
def nonTerminalRecord (rec : MediaRecord) : Bool :=
  !(rec.status == "completed" && strTruthy rec.file_path) && !(rec.status == "failed")

/-- If every iteration from counter value `a` up to `maxAttempts` keeps
polling, the run from `a` times out after issuing one request per remaining
allowed attempt and reporting the timeout once. -/
theorem pollCheck_timeout (oracle : Nat → FetchResult) :
    ∀ fuel a, 1 ≤ a → a + fuel = maxAttempts + 2 →
      (∀ n, a ≤ n → n ≤ maxAttempts → checkStep (oracle n) = .keepPolling pollIntervalMs) →
      pollCheck oracle a fuel =
        { outcome := .timedOut, requests := maxAttempts + 1 - a, timeoutReports := 1 } := by
  intro fuel
  induction fuel with
  | zero =>
      intro a _ hsum _
      have hlt : maxAttempts < a := by omega
      rw [pollCheck]
      simp only [hlt, if_true]
      have : maxAttempts + 1 - a = 0 := by omega
      rw [this]
  | succ fuel ih =>
      intro a ha hsum hcont
      rw [pollCheck]
      by_cases hlt : maxAttempts < a
      · simp only [hlt, if_true]
        have h0 : maxAttempts + 1 - a = 0 := by omega
        rw [h0]
      · simp only [hlt, if_false]
        rw [hcont a (by omega) (by omega)]
        rw [ih (a + 1) (by omega) (by omega) (fun n hn1 hn2 => hcont n (by omega) hn2)]
        simp only [PollResult.mk.injEq, true_and, and_true]
        omega

/-- C1: if every status fetch yields a successful response whose matching
record is non-terminal (neither `completed` with a truthy `file_path` nor
`failed`), the poller terminates: it times out, reports the timeout exactly
once, and issues exactly `maxAttempts = 120` status requests. -/
theorem poll_nonterminal_times_out (oracle : Nat → FetchResult)
    (h : ∀ n, 1 ≤ n → n ≤ maxAttempts → ∃ resp rec,
        oracle n = some resp ∧ findAvatarRecord resp = some rec ∧ nonTerminalRecord rec = true) :
    pollVideoStatus oracle =
      { outcome := .timedOut, requests := maxAttempts, timeoutReports := 1 } := by
  have hstep : ∀ n, 1 ≤ n → n ≤ maxAttempts →
      checkStep (oracle n) = .keepPolling pollIntervalMs := by
    intro n h1 h2
    obtain ⟨resp, rec, ho, hf, hnt⟩ := h n h1 h2
    simp only [nonTerminalRecord, Bool.and_eq_true, Bool.not_eq_true'] at hnt
    rw [ho]
    simp [checkStep, hf, hnt.1, hnt.2]
  have hrun := pollCheck_timeout oracle (maxAttempts + 1) 1 (by omega) (by omega)
    (fun n hn1 hn2 => hstep n hn1 hn2)
  simpa [pollVideoStatus] using hrun

/-- A record reporting `processing`, used by the concrete witness runs. -/
def procRecord : MediaRecord :=
  { media_type := "avatar_video", status := "processing", file_path := none }

/-- An oracle whose every fetch succeeds with a single `processing` record. -/
def procOracle : Nat → FetchResult :=
  fun _ => some { media_records := some [procRecord] }

/-- Witness for C1: on the always-`processing` oracle the poller times out
with 120 requests and one timeout report. -/
theorem poll_nonterminal_times_out_concrete :
    pollVideoStatus procOracle =
      { outcome := .timedOut, requests := maxAttempts, timeoutReports := 1 } :=
  poll_nonterminal_times_out procOracle
    (fun _ _ _ => ⟨{ media_records := some [procRecord] }, procRecord, rfl, rfl, rfl⟩)

/-- If every iteration from `a` up to (but excluding) `k` keeps polling and
iteration `k` resolves `url`, the run from `a` resolves `url` after exactly
the requests of iterations `a..k` and reports no timeout. -/
theorem pollCheck_resolve (oracle : Nat → FetchResult) :
    ∀ fuel a k url, 1 ≤ a → a ≤ k → k ≤ maxAttempts → a + fuel = maxAttempts + 2 →
      (∀ j, a ≤ j → j < k → checkStep (oracle j) = .keepPolling pollIntervalMs) →
      checkStep (oracle k) = .resolve url →
      pollCheck oracle a fuel =
        { outcome := .resolved url, requests := k + 1 - a, timeoutReports := 0 } := by
  intro fuel
  induction fuel with
  | zero =>
      intro a k url ha hak hk hsum _ _
      exfalso; omega
  | succ fuel ih =>
      intro a k url ha hak hk hsum hpre hres
      rw [pollCheck]
      have hlt : ¬ maxAttempts < a := by omega
      simp only [hlt, if_false]
      by_cases hek : a = k
      · subst hek
        rw [hres]
        simp only [PollResult.mk.injEq, true_and, and_true]
        omega
      · rw [hpre a (Nat.le_refl a) (by omega)]
        rw [ih (a + 1) k url (by omega) (by omega) hk (by omega)
          (fun j hj1 hj2 => hpre j (by omega) hj2) hres]
        simp only [PollResult.mk.injEq, true_and, and_true]
        omega

/-- A run that ends resolved contains an iteration whose step resolved. -/
theorem pollCheck_resolved_origin (oracle : Nat → FetchResult) :
    ∀ fuel a url, (pollCheck oracle a fuel).outcome = .resolved url →
      ∃ k, a ≤ k ∧ k ≤ maxAttempts ∧ checkStep (oracle k) = .resolve url := by
  intro fuel
  induction fuel with
  | zero =>
      intro a url h
      rw [pollCheck] at h
      by_cases hlt : maxAttempts < a
      · simp [hlt] at h
      · simp [hlt] at h
  | succ fuel ih =>
      intro a url h
      rw [pollCheck] at h
      by_cases hlt : maxAttempts < a
      · simp [hlt] at h
      · simp only [hlt, if_false] at h
        cases hstep : checkStep (oracle a) with
        | resolve u =>
            rw [hstep] at h
            simp at h
            exact ⟨a, Nat.le_refl a, by omega, by rw [hstep, h]⟩
        | failJob => rw [hstep] at h; simp at h
        | keepPolling d =>
            rw [hstep] at h
            simp at h
            obtain ⟨k, hk1, hk2, hk3⟩ := ih (a + 1) url h
            exact ⟨k, by omega, hk2, hk3⟩

/-- C2: the poller resolves exactly when the matching record of the fetched
response has status `completed` and a non-empty `file_path p`; it then
delivers `"/" ++ p`, and a run whose first resolving iteration is `k` issues
exactly `k` status requests (none after the resolution); conversely a
resolved run contains an iteration whose fetch matched such a record. A
`completed` record with an empty or absent `file_path` does not resolve: the
step keeps polling. -/
theorem poll_resolve_characterization :
    (∀ fr url, checkStep fr = .resolve url ↔
        ∃ resp rec p, fr = some resp ∧ findAvatarRecord resp = some rec ∧
          rec.status = "completed" ∧ rec.file_path = some p ∧ p ≠ "" ∧ url = "/" ++ p)
    ∧ (∀ oracle k url, 1 ≤ k → k ≤ maxAttempts →
        (∀ j, 1 ≤ j → j < k → checkStep (oracle j) = .keepPolling pollIntervalMs) →
        checkStep (oracle k) = .resolve url →
        pollVideoStatus oracle = { outcome := .resolved url, requests := k, timeoutReports := 0 })
    ∧ (∀ resp rec, findAvatarRecord resp = some rec → rec.status = "completed" →
        strTruthy rec.file_path = false → checkStep (some resp) = .keepPolling pollIntervalMs)
    ∧ (∀ oracle url, (pollVideoStatus oracle).outcome = .resolved url →
        ∃ k, 1 ≤ k ∧ k ≤ maxAttempts ∧ checkStep (oracle k) = .resolve url) := by
  refine ⟨?_, ?_, ?_, ?_⟩
  · intro fr url
    constructor
    · intro h
      cases fr with
      | none => simp [checkStep] at h
      | some resp =>
        cases hf : findAvatarRecord resp with
        | none => simp [checkStep, hf] at h
        | some rec =>
          simp only [checkStep, hf] at h
          by_cases hc : (rec.status == "completed" && strTruthy rec.file_path) = true
          · rw [if_pos hc] at h
            obtain ⟨hst, htr⟩ := Bool.and_eq_true_iff.mp hc
            cases hfp : rec.file_path with
            | none => rw [hfp] at htr; simp [strTruthy] at htr
            | some p =>
              rw [hfp] at htr
              have hp : p ≠ "" := by simpa [strTruthy] using htr
              refine ⟨resp, rec, p, rfl, hf, by simpa using hst, hfp, hp, ?_⟩
              have := (StepOutcome.resolve.injEq _ _).mp h.symm
              simp [hfp] at this
              exact this
          · rw [if_neg hc] at h
            by_cases hd : (rec.status == "failed") = true
            · rw [if_pos hd] at h; exact absurd h (by simp)
            · rw [if_neg hd] at h; exact absurd h (by simp)
    · rintro ⟨resp, rec, p, rfl, hf, hst, hfp, hp, rfl⟩
      simp [checkStep, hf, hst, hfp, strTruthy, hp]
  · intro oracle k url h1 h2 hpre hres
    have hrun := pollCheck_resolve oracle (maxAttempts + 1) 1 k url (by omega) h1 h2 (by omega)
      (fun j hj1 hj2 => hpre j hj1 hj2) hres
    have hk : k + 1 - 1 = k := by omega
    rw [hk] at hrun
    simpa [pollVideoStatus] using hrun
  · intro resp rec hf hst hfp
    simp [checkStep, hf, hst, hfp]
  · intro oracle url h
    exact pollCheck_resolved_origin oracle (maxAttempts + 1) 1 url h

/-- A record reporting `completed` with file path `x.mp3`. -/
def completedRecord : MediaRecord :=
  { media_type := "avatar_video", status := "completed", file_path := some "x.mp3" }

/-- An oracle that reports `processing` on the first two fetches and
`completed` with file path `x.mp3` on the third. -/
def resolveAtThreeOracle : Nat → FetchResult :=
  fun n =>
    if n = 3 then some { media_records := some [completedRecord] }
    else some { media_records := some [procRecord] }

/-- Witness for C2: the poller that sees `completed`/`x.mp3` on attempt 3
resolves with `/x.mp3` after exactly 3 requests. -/
theorem poll_resolve_characterization_concrete :
    pollVideoStatus resolveAtThreeOracle =
      { outcome := .resolved "/x.mp3", requests := 3, timeoutReports := 0 } :=
  poll_resolve_characterization.2.1 resolveAtThreeOracle 3 "/x.mp3"
    (by omega) (by decide)
    (fun j hj1 hj2 => by interval_cases j <;> rfl)
    (by rfl)

/-- C6: a thrown status fetch is handled exactly like a non-terminal response:
the iteration schedules the next attempt after the same 5000 ms delay (never
surfacing an error outcome), and a run whose every fetch throws ends only in
the timeout report, issued once, after the 120-request budget is exhausted. -/
theorem poll_fetch_failure_retries_then_times_out :
    checkStep none = .keepPolling pollIntervalMs
    ∧ checkStep (some { media_records := some [procRecord] }) = .keepPolling pollIntervalMs
    ∧ pollVideoStatus (fun _ => none) =
        { outcome := .timedOut, requests := maxAttempts, timeoutReports := 1 } := by
  refine ⟨rfl, rfl, ?_⟩
  have hrun := pollCheck_timeout (fun _ => none) (maxAttempts + 1) 1 (by omega) (by omega)
    (fun _ _ _ => rfl)
  simpa [pollVideoStatus] using hrun

/-! ## Video job launcher (src/unnamed/part_003, `handleVideoGenerate`) -/

/-- Module state of the video generator read by `handleVideoGenerate`:
`uploadedPhotoPaths`, `uploadedAudioPath`, `currentTaskId`,
`currentVoiceTaskId` (src/unnamed/part_003 lines 15-18); all start as `null`
and are set through the exported setters. -/
structure VideoModuleState where
  uploadedPhotoPaths : Option (List String)
  uploadedAudioPath : Option String
  currentTaskId : Option String
  currentVoiceTaskId : Option String
deriving DecidableEq, Repr

/-- The photo guard `!uploadedPhotoPaths || uploadedPhotoPaths.length === 0`
passes iff this is `true`: a non-null, non-empty array. -/
def photosTruthy : Option (List String) → Bool
  | none => false
  | some l => l.length != 0

/-- A job-start request the video module can issue (src/frontend/api/api-client.js):
the uploaded-audio variant carries `audio_path` and `image_path`, the task-id
variant carries the task id and `image_path`. -/
inductive VideoRequest where
  | generateVideoWithUploadedAudio (audioPath imagePath : String)
  | generateVideo (taskId imagePath : String)
deriving DecidableEq, Repr

/-- The `{success, task_id}` shape of a launch response as read by
`handleVideoGenerate`. -/
structure LaunchResult where
  success : Bool
  task_id : String
deriving DecidableEq, Repr

/-- What `handleVideoGenerate` ends with: each early return carries the
notification it shows; `pollingStarted id` means the launch succeeded,
`currentVideoTaskId` was set to `id` and `pollVideoStatus(id)` was started. -/
inductive VideoOutcome where
  | missingPhotos
  | missingAsset
  | launchFailed
  | pollingStarted (videoTaskId : String)
deriving DecidableEq, Repr

/-- Observable effects of one `handleVideoGenerate` run: the job-start
requests issued (in order) and the outcome. -/
structure VideoRunResult where
  requests : List VideoRequest
  outcome : VideoOutcome
deriving DecidableEq, Repr

/-- `handleVideoGenerate` (src/unnamed/part_003 lines 74-127): photo guard;
`taskId = currentTaskId || currentVoiceTaskId`; missing-asset guard
`!uploadedAudioPath && !taskId`; then the uploaded-audio variant if
`uploadedAudioPath` is truthy, else the task-id variant, with
`imagePath = uploadedPhotoPaths[0]`; a failed launch stops with an error
notification, a successful one starts polling on the returned `task_id`. -/
def handleVideoGenerate (st : VideoModuleState) (api : VideoRequest → LaunchResult) :
    VideoRunResult :=
  if !photosTruthy st.uploadedPhotoPaths then
    { requests := [], outcome := .missingPhotos }
  else
    let taskId := jsOr st.currentTaskId st.currentVoiceTaskId
    if !strTruthy st.uploadedAudioPath && !strTruthy taskId then
      { requests := [], outcome := .missingAsset }
    else
      let imagePath := (st.uploadedPhotoPaths.getD []).headD ""
      let req :=
        if strTruthy st.uploadedAudioPath then
          VideoRequest.generateVideoWithUploadedAudio (st.uploadedAudioPath.getD "") imagePath
        else
          VideoRequest.generateVideo (taskId.getD "") imagePath
      let videoResult := api req
      if !videoResult.success then
        { requests := [req], outcome := .launchFailed }
      else
        { requests := [req], outcome := .pollingStarted videoResult.task_id }

/-- C3: with photos present but no truthy uploaded audio path and no truthy
content or voice task id, `handleVideoGenerate` stops synchronously at the
missing-asset guard and issues zero network requests. -/
theorem video_launch_missing_asset_short_circuits
    (st : VideoModuleState) (api : VideoRequest → LaunchResult)
    (hp : photosTruthy st.uploadedPhotoPaths = true)
    (ha : strTruthy st.uploadedAudioPath = false)
    (hc : strTruthy st.currentTaskId = false)
    (hv : strTruthy st.currentVoiceTaskId = false) :
    handleVideoGenerate st api = { requests := [], outcome := .missingAsset } := by
  simp [handleVideoGenerate, hp, jsOr, ha, hc, hv]

/-- Witness for C3: a concrete state with one photo, no audio and no task ids. -/
theorem video_launch_missing_asset_concrete :
    handleVideoGenerate
      { uploadedPhotoPaths := some ["face.jpg"], uploadedAudioPath := none,
        currentTaskId := none, currentVoiceTaskId := none }
      (fun _ => { success := true, task_id := "vid-1" }) =
      { requests := [], outcome := .missingAsset } :=
  video_launch_missing_asset_short_circuits _ _ rfl rfl rfl rfl

/-- C7: with photos present, a truthy uploaded audio path, and a prior
content/voice task id also present, the uploaded-audio variant is the only
request issued and the task-id variant is never called: the uploaded asset
wins over the derived task id. -/
theorem video_launch_uploaded_audio_wins
    (st : VideoModuleState) (api : VideoRequest → LaunchResult)
    (hp : photosTruthy st.uploadedPhotoPaths = true)
    (ha : strTruthy st.uploadedAudioPath = true)
    (_ht : strTruthy (jsOr st.currentTaskId st.currentVoiceTaskId) = true) :
    (handleVideoGenerate st api).requests =
      [VideoRequest.generateVideoWithUploadedAudio (st.uploadedAudioPath.getD "")
        ((st.uploadedPhotoPaths.getD []).headD "")]
    ∧ ∀ t ip, VideoRequest.generateVideo t ip ∉ (handleVideoGenerate st api).requests := by
  have key : (handleVideoGenerate st api).requests =
      [VideoRequest.generateVideoWithUploadedAudio (st.uploadedAudioPath.getD "")
        ((st.uploadedPhotoPaths.getD []).headD "")] := by
    simp only [handleVideoGenerate, hp, ha]
    simp only [Bool.not_true, Bool.false_and, Bool.false_eq_true, if_false, if_true]
    split <;> rfl
  refine ⟨key, ?_⟩
  intro t ip hmem
  rw [key] at hmem
  simp at hmem

/-- A state holding a photo, an uploaded audio and a registered content task id. -/
def audioWinsState : VideoModuleState :=
  { uploadedPhotoPaths := some ["face.jpg"], uploadedAudioPath := some "my.mp3",
    currentTaskId := some "task-1", currentVoiceTaskId := none }

/-- A launch API whose every request succeeds with job id `vid-2`. -/
def okLaunchApi : VideoRequest → LaunchResult :=
  fun _ => { success := true, task_id := "vid-2" }

/-- Witness for C7: the concrete state with a photo, an uploaded audio and a
registered content task id issues only the uploaded-audio request. -/
theorem video_launch_uploaded_audio_wins_concrete :
    (handleVideoGenerate audioWinsState okLaunchApi).requests =
      [VideoRequest.generateVideoWithUploadedAudio "my.mp3" "face.jpg"] :=
  (video_launch_uploaded_audio_wins audioWinsState okLaunchApi rfl rfl rfl).1

/-- Task environment: the server-side status of each task id (a task is
created in `draft` status; approval is a separate user action). The video
launcher never reads this environment. -/
def TaskStore := String → Option String

/-- A store holding a single task `task-1` still in `draft` status. -/
def draftStore : TaskStore :=
  fun id => if id = "task-1" then some "draft" else none

/-- Video-module state referencing the unapproved task `task-1` (as set by the
`content-generated` listener in src/frontend/admin.js right after creation). -/
def unapprovedVideoState : VideoModuleState :=
  { uploadedPhotoPaths := some ["face.jpg"], uploadedAudioPath := none,
    currentTaskId := some "task-1", currentVoiceTaskId := none }

/-- Counterexample for C4: the referenced task is in status `draft` (neither
`approved` nor `completed`), yet `handleVideoGenerate` issues the video
job-start request carrying that task id — the video launcher performs no
approval check at all. -/
theorem video_launch_unapproved_task_issues_request :
    draftStore "task-1" = some "draft"
    ∧ jsOr unapprovedVideoState.currentTaskId unapprovedVideoState.currentVoiceTaskId
        = some "task-1"
    ∧ (handleVideoGenerate unapprovedVideoState
        (fun _ => { success := true, task_id := "vid-1" })).requests
        = [VideoRequest.generateVideo "task-1" "face.jpg"] := by
  refine ⟨rfl, rfl, rfl⟩

/-! ## Voice pipeline (src/frontend/modules/voice-generator.js, `handleVoiceGenerate`) -/

/-- A request the voice pipeline can issue, in pipeline order: create the
content task, approve it, start the voice job. -/
inductive VoiceRequest where
  | generateContent (topic style length : String)
  | approveTask (taskId : String)
  | generateVoice (taskId : String)
deriving DecidableEq, Repr

/-- The uniform `{success, ...}` result shape read by `handleVoiceGenerate`
(`task_id` of the create response, `file_path` of the voice response). -/
structure VoiceApiResult where
  success : Bool
  task_id : String
  file_path : String
deriving DecidableEq, Repr

/-- Terminal state of one `handleVoiceGenerate` run; each failure constructor
corresponds to the error notification of the stage that failed. -/
inductive VoiceOutcome where
  | emptyText
  | createFailed
  | approveFailed
  | voiceFailed
  | generated (audioUrl taskId : String)
deriving DecidableEq, Repr

/-- Observable effects of one `handleVoiceGenerate` run: the requests issued
(in order) and the outcome. -/
structure VoiceRunResult where
  requests : List VoiceRequest
  outcome : VoiceOutcome
deriving DecidableEq, Repr

/-- `handleVoiceGenerate` (src/frontend/modules/voice-generator.js lines
95-148): `text = voicePrompt?.value?.trim()` must be truthy; then
`generateContent(text, 'speech', 'short')`, `approveTask(taskId)` and
`generateVoice(taskId)` in sequence, each guarded by `.success` and stopping
with an error notification on failure; on success the audio URL is
`'/' + file_path`. `raw` is the (nullable) textarea value. -/
def handleVoiceGenerate (raw : Option String) (api : VoiceRequest → VoiceApiResult) :
    VoiceRunResult :=
  let text := raw.map jsTrim
  if !strTruthy text then { requests := [], outcome := .emptyText }
  else
    let contentReq := VoiceRequest.generateContent (text.getD "") "speech" "short"
    let contentResult := api contentReq
    if !contentResult.success then { requests := [contentReq], outcome := .createFailed }
    else
      let taskId := contentResult.task_id
      let approveReq := VoiceRequest.approveTask taskId
      let approveResult := api approveReq
      if !approveResult.success then
        { requests := [contentReq, approveReq], outcome := .approveFailed }
      else
        let voiceReq := VoiceRequest.generateVoice taskId
        let voiceResult := api voiceReq
        if !voiceResult.success then
          { requests := [contentReq, approveReq, voiceReq], outcome := .voiceFailed }
        else
          { requests := [contentReq, approveReq, voiceReq],
            outcome := .generated ("/" ++ voiceResult.file_path) taskId }

/-- C5: when the approve call reports failure, the voice pipeline stops with
the approval-error outcome after exactly the create and approve requests, and
no `generateVoice` request is ever issued: approval fails closed. -/
theorem voice_approve_failure_blocks_generate
    (raw : Option String) (api : VoiceRequest → VoiceApiResult)
    (htext : strTruthy (raw.map jsTrim) = true)
    (hcreate : (api (VoiceRequest.generateContent ((raw.map jsTrim).getD "")
        "speech" "short")).success = true)
    (happrove : (api (VoiceRequest.approveTask
        (api (VoiceRequest.generateContent ((raw.map jsTrim).getD "")
          "speech" "short")).task_id)).success = false) :
    handleVoiceGenerate raw api =
      { requests := [VoiceRequest.generateContent ((raw.map jsTrim).getD "")
            "speech" "short",
          VoiceRequest.approveTask (api (VoiceRequest.generateContent
            ((raw.map jsTrim).getD "") "speech" "short")).task_id],
        outcome := .approveFailed }
    ∧ ∀ t, VoiceRequest.generateVoice t ∉ (handleVoiceGenerate raw api).requests := by
  have heq : handleVoiceGenerate raw api =
      { requests := [VoiceRequest.generateContent ((raw.map jsTrim).getD "")
            "speech" "short",
          VoiceRequest.approveTask (api (VoiceRequest.generateContent
            ((raw.map jsTrim).getD "") "speech" "short")).task_id],
        outcome := .approveFailed } := by
    simp [handleVoiceGenerate, htext, hcreate, happrove]
  refine ⟨heq, ?_⟩
  intro t
  rw [heq]
  simp

/-- A voice API where create and generate succeed but approval is rejected. -/
def approveRejectsApi : VoiceRequest → VoiceApiResult :=
  fun r =>
    match r with
    | .approveTask _ => { success := false, task_id := "", file_path := "" }
    | _ => { success := true, task_id := "task-9", file_path := "voice.mp3" }

/-- Witness for C5: with prompt `hello` and an API that rejects approval, the
run stops at `approveFailed` having issued only create and approve. -/
theorem voice_approve_failure_blocks_generate_concrete :
    handleVoiceGenerate (some "hello") approveRejectsApi =
      { requests := [VoiceRequest.generateContent "hello" "speech" "short",
          VoiceRequest.approveTask "task-9"],
        outcome := .approveFailed } :=
  (voice_approve_failure_blocks_generate (some "hello") approveRejectsApi
    rfl rfl rfl).1

/-- C4 (amended): the voice pipeline enforces approval before launch — any
`generateVoice` request it issues targets a task id whose approve call was
issued in the same run and succeeded — whereas the video launcher performs no
approval check: whenever a truthy task id is registered and no uploaded audio
is present, it issues the video job-start request carrying that id,
regardless of the referenced task's status. -/
theorem voice_requires_approval_video_launch_unchecked :
    (∀ (raw : Option String) (api : VoiceRequest → VoiceApiResult) (t : String),
        VoiceRequest.generateVoice t ∈ (handleVoiceGenerate raw api).requests →
        VoiceRequest.approveTask t ∈ (handleVoiceGenerate raw api).requests
        ∧ (api (VoiceRequest.approveTask t)).success = true)
    ∧ (∀ (st : VideoModuleState) (api : VideoRequest → LaunchResult) (t : String),
        photosTruthy st.uploadedPhotoPaths = true →
        strTruthy st.uploadedAudioPath = false →
        jsOr st.currentTaskId st.currentVoiceTaskId = some t → t ≠ "" →
        (handleVideoGenerate st api).requests =
          [VideoRequest.generateVideo t ((st.uploadedPhotoPaths.getD []).headD "")]) := by
  constructor
  · intro raw api t hmem
    by_cases htext : strTruthy (raw.map jsTrim) = true
    · by_cases hcreate : (api (VoiceRequest.generateContent ((raw.map jsTrim).getD "")
          "speech" "short")).success = true
      · by_cases happrove : (api (VoiceRequest.approveTask
            (api (VoiceRequest.generateContent ((raw.map jsTrim).getD "")
              "speech" "short")).task_id)).success = true
        · simp [handleVoiceGenerate, htext, hcreate, happrove,
            apply_ite VoiceRunResult.requests] at hmem ⊢
          subst hmem
          exact ⟨rfl, happrove⟩
        · simp [handleVoiceGenerate, htext, hcreate, happrove] at hmem
      · simp [handleVoiceGenerate, htext, hcreate] at hmem
    · simp [handleVoiceGenerate, htext] at hmem
  · intro st api t hp ha hj ht
    have hst : strTruthy (some t) = true := by simp [strTruthy, ht]
    simp [handleVideoGenerate, hp, ha, hj, hst, apply_ite VideoRunResult.requests]

/-- A voice API whose every call succeeds, creating task `task-9`. -/
def allOkVoiceApi : VoiceRequest → VoiceApiResult :=
  fun _ => { success := true, task_id := "task-9", file_path := "voice.mp3" }

/-- Witness for the amended C4: on the all-success voice run the approve of
`task-9` was issued and succeeded before `generateVoice`, and on the concrete
unapproved-task state the video launcher still issues the job-start request. -/
theorem voice_requires_approval_video_launch_unchecked_concrete :
    (VoiceRequest.approveTask "task-9" ∈
        (handleVoiceGenerate (some "hello") allOkVoiceApi).requests
      ∧ (allOkVoiceApi (VoiceRequest.approveTask "task-9")).success = true)
    ∧ (handleVideoGenerate unapprovedVideoState
        (fun _ => { success := true, task_id := "vid-1" })).requests =
        [VideoRequest.generateVideo "task-1" "face.jpg"] :=
  ⟨voice_requires_approval_video_launch_unchecked.1 (some "hello") allOkVoiceApi
      "task-9" (by decide),
    voice_requires_approval_video_launch_unchecked.2 unapprovedVideoState
      (fun _ => { success := true, task_id := "vid-1" }) "task-1"
      rfl rfl rfl (by decide)⟩

/-! ## Content generation entry (src/frontend/modules/content-generator.js, `generate`) -/

/-- The only request the content entry can issue. -/
inductive ContentRequest where
  | generateContent (topic style length : String)
deriving DecidableEq, Repr

/-- The `{success, task_id}` shape of the create response as read by `generate`. -/
structure ContentApiResult where
  success : Bool
  task_id : String
deriving DecidableEq, Repr

/-- Terminal state of one content `generate` run. -/
inductive ContentOutcome where
  | emptyPrompt
  | noOutputDiv
  | failed
  | generated (taskId : String)
deriving DecidableEq, Repr

/-- Observable effects of one content `generate` run. -/
structure ContentRunResult where
  requests : List ContentRequest
  outcome : ContentOutcome
deriving DecidableEq, Repr

/-- `getStyleByType` (src/frontend/modules/content-generator.js lines 161-171):
`styleMap[contentType] || 'formal'`. -/
def getStyleByType (contentType : Option String) : String :=
  match contentType with
  | some "press" => "formal"
  | some "speech" => "formal"
  | some "facebook" => "casual"
  | some "instagram" => "casual"
  | some "poster" => "concise"
  | _ => "formal"

/-- `generate` (src/frontend/modules/content-generator.js lines 28-86): if the
prompt (`#genPrompt` value, nullable) does not trim to a truthy string, a
warning is shown and the function returns before any API call; it also
returns early when the output container is missing; otherwise
`generateContent(prompt, style, 'medium')` is called with the untrimmed
prompt and the style derived from the content type. -/
def contentGenerate (contentType prompt : Option String) (outputDivPresent : Bool)
    (api : ContentRequest → ContentApiResult) : ContentRunResult :=
  if !strTruthy (prompt.map jsTrim) then { requests := [], outcome := .emptyPrompt }
  else if !outputDivPresent then { requests := [], outcome := .noOutputDiv }
  else
    let style := getStyleByType contentType
    let req := ContentRequest.generateContent (prompt.getD "") style "medium"
    let result := api req
    if result.success then { requests := [req], outcome := .generated result.task_id }
    else { requests := [req], outcome := .failed }

/-- C8: a run of the content-generation entry whose topic is empty,
whitespace-only, or absent stops at the client-side validation warning and
issues zero HTTP requests. -/
theorem content_generate_empty_topic_no_request
    (contentType prompt : Option String) (outputDivPresent : Bool)
    (api : ContentRequest → ContentApiResult)
    (h : strTruthy (prompt.map jsTrim) = false) :
    contentGenerate contentType prompt outputDivPresent api =
      { requests := [], outcome := .emptyPrompt } := by
  simp [contentGenerate, h]

/-- Witness for C8 at a whitespace-only topic. -/
theorem content_generate_empty_topic_no_request_concrete :
    contentGenerate (some "press") (some "   ") true
      (fun _ => { success := true, task_id := "task-2" }) =
      { requests := [], outcome := .emptyPrompt } :=
  content_generate_empty_topic_no_request (some "press") (some "   ") true
    (fun _ => { success := true, task_id := "task-2" }) rfl

/-! ## Task-id registry (src/unnamed/part_003, `setCurrentTaskId`) -/

/-- The two module variables written by `setCurrentTaskId`: `currentTaskId`
(content stage) and `currentVoiceTaskId` (voice stage). -/
structure TaskRegistry where
  currentTaskId : Option String
  currentVoiceTaskId : Option String
deriving DecidableEq, Repr

/-- `setCurrentTaskId(taskId, type)` (src/unnamed/part_003 lines 61-67 and
src/frontend/modules/video-generator.js lines 91-97): writes the content slot
when `type === 'content'`, the voice slot when `type === 'voice'`, and
otherwise changes nothing. -/
def setCurrentTaskId (st : TaskRegistry) (taskId : Option String) (ty : String) :
    TaskRegistry :=
  if ty = "content" then { st with currentTaskId := taskId }
  else if ty = "voice" then { st with currentVoiceTaskId := taskId }
  else st

/-- C9: the registry is last-write-wins per stage: for each stage, two
successive sets are absorbed into the second set, the stored id for that
stage is then the second id, and — when the ids differ — the first id is no
longer stored for that stage; the sets are total, so repeated sets never
error. -/
theorem registry_last_write_wins (st : TaskRegistry) (id1 id2 : Option String) :
    (setCurrentTaskId (setCurrentTaskId st id1 "content") id2 "content"
        = setCurrentTaskId st id2 "content"
      ∧ (setCurrentTaskId (setCurrentTaskId st id1 "content") id2 "content").currentTaskId
          = id2
      ∧ (id1 ≠ id2 →
          (setCurrentTaskId (setCurrentTaskId st id1 "content") id2 "content").currentTaskId
            ≠ id1))
    ∧ (setCurrentTaskId (setCurrentTaskId st id1 "voice") id2 "voice"
        = setCurrentTaskId st id2 "voice"
      ∧ (setCurrentTaskId (setCurrentTaskId st id1 "voice") id2 "voice").currentVoiceTaskId
          = id2
      ∧ (id1 ≠ id2 →
          (setCurrentTaskId (setCurrentTaskId st id1 "voice") id2 "voice").currentVoiceTaskId
            ≠ id1)) := by
  refine ⟨⟨rfl, rfl, fun h => ?_⟩, ⟨rfl, rfl, fun h => ?_⟩⟩
  · simpa [setCurrentTaskId] using Ne.symm h
  · simpa [setCurrentTaskId] using Ne.symm h

/-- Witness for C9: on the empty registry, setting `a` then `b` on the
content stage stores `b` and no longer stores `a`. -/
theorem registry_last_write_wins_concrete :
    (setCurrentTaskId (setCurrentTaskId { currentTaskId := none, currentVoiceTaskId := none }
        (some "a") "content") (some "b") "content").currentTaskId = some "b"
    ∧ (setCurrentTaskId (setCurrentTaskId { currentTaskId := none, currentVoiceTaskId := none }
        (some "a") "content") (some "b") "content").currentTaskId ≠ some "a" :=
  ⟨(registry_last_write_wins ⟨none, none⟩ (some "a") (some "b")).1.2.1,
    (registry_last_write_wins ⟨none, none⟩ (some "a") (some "b")).1.2.2 (by decide)⟩

/-- C10: `setCurrentTaskId` is a per-stage frame: a call with a type other
than `content` and `voice` leaves both stored ids unchanged (it is a no-op on
registry state), a `content` set leaves the voice id unchanged, and a `voice`
set leaves the content id unchanged. -/
theorem registry_set_frame (st : TaskRegistry) (id : Option String) (ty : String) :
    (ty ≠ "content" → ty ≠ "voice" → setCurrentTaskId st id ty = st)
    ∧ (setCurrentTaskId st id "content").currentVoiceTaskId = st.currentVoiceTaskId
    ∧ (setCurrentTaskId st id "voice").currentTaskId = st.currentTaskId := by
  refine ⟨fun h1 h2 => ?_, rfl, rfl⟩
  simp [setCurrentTaskId, h1, h2]

/-- Witness for C10: a `video`-typed set leaves the concrete registry intact. -/
theorem registry_set_frame_concrete :
    setCurrentTaskId { currentTaskId := some "a", currentVoiceTaskId := some "b" }
      (some "x") "video" =
      { currentTaskId := some "a", currentVoiceTaskId := some "b" } :=
  (registry_set_frame ⟨some "a", some "b"⟩ (some "x") "video").1 (by decide) (by decide)

end PAIS

